import Mathlib

/-!
Shallow embedding of the ticket-triage program (src/triage.py, src/clean.py).

External effects are modelled explicitly:
* environment lookups become an Option String argument;
* the AI backend calls become function arguments returning Except, where
  Except.error M stands for the underlying call raising an exception whose
  str() is M, and Except.ok stands for a normal return;
* the filesystem becomes either a list of (filename, content) pairs (the
  directory listing the batch loop iterates over) or a store function from
  filename to Option String (for overwrite semantics);
* the streaming pull protocol becomes a list of line events.
Python-specific primitives (str.endswith, substring test, truthiness of an
optional string) are given as executable definitions mirroring Python.
-/

namespace Triage

/-- Python str.endswith(suffix): character-suffix test. -/
def pyEndsWith (s suf : String) : Bool :=
  suf.data.isSuffixOf s.data

/-- Python str.startswith: character-sequence test. -/
def pyStartsWith (s pre : String) : Bool :=
  pre.data.isPrefixOf s.data

/-- Python substring membership test, as in (sub in s). -/
def strContainsSub (s sub : String) : Bool :=
  s.data.tails.any (fun t => sub.data.isPrefixOf t)

/-- Python truthiness of os.getenv's result: None and the empty string are falsy. -/
def pyFalsyStr : Option String → Bool
  | none => true
  | some s => s.isEmpty

/-- Python str.lower, character by character (ASCII case mapping, which covers
the status keywords compared against it). -/
def pyLower (s : String) : String :=
  String.mk (s.data.map Char.toLower)

/-! ### Prompt rendering (triage.py lines 121-137 and 164-180)

Each adapter renders its prompt with an f-string; the translation splits the
literal at the single interpolation point {ticket_content} into the text
before and after it, transcribed byte-for-byte from each function. -/

/-- Text of the Ollama adapter's f-string before the ticket interpolation (triage.py 121-133). -/
def ollamaPromptPre : String :=
  "\n    You are an expert IT support ticket triaging system. Your task is to analyze the following IT ticket and provide a structured triage report.\n\n    The triage report must include the following sections:\n    - **Urgency**: (e.g., Low, Medium, High, Critical)\n    - **Category**: (e.g., Hardware, Software, Network, Account, Other)\n    - **Summary**: A brief, one-sentence summary of the issue.\n    - **Next Step**: Propose a concrete next action. This should be a numbered list of 1-3 clear, actionable steps.\n    - **New Status**: Based on the \"Next Step\", set the status to one of the following: \"unclear\" (if more information is needed), \"pending next step\" (if the user needs to do something), or \"closed\" (if no action is required).\n\n    Here is the ticket:\n    ---\n    "

/-- Text of the Ollama adapter's f-string after the ticket interpolation (triage.py 133-137). -/
def ollamaPromptSuf : String :=
  "\n    ---\n\n    Please provide the triage report in markdown format.\n    "

/-- The prompt rendered by triage_ticket_ollama for a given ticket text. -/
def ollamaPrompt (ticket_content : String) : String :=
  ollamaPromptPre ++ ticket_content ++ ollamaPromptSuf

/-- Text of the Gemini adapter's f-string before the ticket interpolation (triage.py 164-176). -/
def geminiPromptPre : String :=
  "\n    You are an expert IT support ticket triaging system. Your task is to analyze the following IT ticket and provide a structured triage report.\n\n    The triage report must include the following sections:\n    - **Urgency**: (e.g., Low, Medium, High, Critical)\n    - **Category**: (e.g., Hardware, Software, Network, Account, Other)\n    - **Summary**: A brief, one-sentence summary of the issue.\n    - **Next Step**: Propose a concrete next action. This should be a numbered list of 1-3 clear, actionable steps.\n    - **New Status**: Based on the \"Next Step\", set the status to one of the following: \"unclear\" (if more information is needed), \"pending next step\" (if the user needs to do something), or \"closed\" (if no action is required).\n\n    Here is the ticket:\n    ---\n    "

/-- Text of the Gemini adapter's f-string after the ticket interpolation (triage.py 176-180). -/
def geminiPromptSuf : String :=
  "\n    ---\n\n    Please provide the triage report in markdown format.\n    "

/-- The prompt rendered by triage_ticket_gemini for a given ticket text. -/
def geminiPrompt (ticket_content : String) : String :=
  geminiPromptPre ++ ticket_content ++ geminiPromptSuf

/-! ### Backend adapters (triage.py 104-197)

The result type Except String String separates an exception propagated to the
caller (error, carrying the exception message) from a normal string return
(ok). The backend call is a function argument: for Ollama, from model name
and prompt to the extracted response content or a raised exception; for
Gemini, from prompt to the optional response.text field or a raised
exception (covering client construction and the generate_content call). -/

/-- triage_ticket_ollama (triage.py 104-151): reads OLLAMA_MODEL, raises ValueError
when it is unset or empty, otherwise calls the backend with the rendered prompt;
a backend exception is contained as an error-report string. -/
def triage_ticket_ollama (ollama_model : Option String)
    (chat : String → String → Except String String)
    (ticket_content : String) : Except String String :=
  if pyFalsyStr ollama_model then
    Except.error "OLLAMA_MODEL environment variable not set."
  else
    match ollama_model with
    | none => Except.error "OLLAMA_MODEL environment variable not set."
    | some m =>
      match chat m (ollamaPrompt ticket_content) with
      | Except.ok content => Except.ok content
      | Except.error e => Except.ok ("Error during Ollama triage: " ++ e)

/-- triage_ticket_gemini (triage.py 153-197): calls the backend with the rendered
prompt; a falsy response.text field (None or empty) is replaced by the empty-response
sentinel, and a backend exception is contained as an error-report string. -/
def triage_ticket_gemini (generate : String → Except String (Option String))
    (ticket_content : String) : Except String String :=
  match generate (geminiPrompt ticket_content) with
  | Except.ok t =>
    Except.ok (match t with
      | none => "Error: Empty response from Gemini."
      | some s => if s.isEmpty then "Error: Empty response from Gemini." else s)
  | Except.error e => Except.ok ("Error during Gemini triage: " ++ e)

/-! ### Batch loop (triage.py 243-270)

The loop body, for the files enumerated from the input directory. The triage
call inside the loop is total (the adapters never raise once the run is past
the configuration check at lines 226-230), so it is a function argument. -/

/-- The status block appended to the original content (triage.py 256). -/
def ticketWithStatus (original_content : String) : String :=
  original_content ++ "\n\n---\n\n**Status:** new"

/-- The combined output content (triage.py 265). -/
def updatedContent (ticket_with_status triage_report : String) : String :=
  ticket_with_status ++ "\n\n---\n\n## Triage\n\n" ++ triage_report

/-- One iteration of the loop body on a file's content: status block appended,
triage invoked on the original (pre-status) content (triage.py 256-265). -/
def processTicket (triage : String → String) (original_content : String) : String :=
  updatedContent (ticketWithStatus original_content) (triage original_content)

/-- The batch loop over the directory listing, as the list of
(filename, written content) pairs it produces (triage.py 243-270). -/
def runBatch (triage : String → String) (files : List (String × String)) :
    List (String × String) :=
  files.filterMap (fun fc =>
    if pyEndsWith fc.1 ".md" = true then some (fc.1, processTicket triage fc.2)
    else none)

/-- The output directory as a map from filename to content. -/
abbrev Store := String → Option String

/-- Writing a file: open(..., 'w') overwrites any existing file of that name (triage.py 269-270). -/
def writeFile (st : Store) (fn content : String) : Store :=
  fun n => if n = fn then some content else st n

/-- The batch loop acting on the output directory: each matching file is written
under its own name, in listing order (triage.py 243-270). -/
def runBatchStore (triage : String → String) (files : List (String × String))
    (st : Store) : Store :=
  files.foldl (fun s fc =>
    if pyEndsWith fc.1 ".md" = true then writeFile s fc.1 (processTicket triage fc.2)
    else s) st

/-! ### Streaming pull (triage.py 26-79) and availability check (triage.py 81-100)

Each line of response.iter_lines() is modelled by what evaluating the loop
body on it does: an empty line (skipped by the if line: guard), a line whose
json.loads succeeds, giving the optional status string and optional
completed/total progress fields of the event, a line whose json.loads raises
(carrying the ValueError message), or a RequestException raised by the
iterator at that point (carrying its message). -/

inductive PullLine where
  | empty : PullLine
  | parsed (status : Option String) (completed : Option Nat) (total : Option Nat) : PullLine
  | malformed (msg : String) : PullLine
  | netErr (msg : String) : PullLine
deriving DecidableEq, Repr

/-- Outcome of pull_model_with_progress: a returned boolean, or an exception
propagating out of it (carrying the message). -/
inductive PullResult where
  | ok (b : Bool) : PullResult
  | raised (msg : String) : PullResult
deriving DecidableEq, Repr

/-- The for-loop of triage.py 54-75 over the streamed lines. A success/finished
status returns True; a progress pair with total = 0 raises ZeroDivisionError
at the percent computation (line 70), which the except clause (line 76, catching
only RequestException) does not contain; a json.loads failure (line 57) likewise
propagates; a RequestException from the iterator is caught and turned into
False by that except clause; exhaustion returns True (line 75). -/
def processPullLines : List PullLine → PullResult
  | [] => PullResult.ok true
  | PullLine.empty :: rest => processPullLines rest
  | PullLine.malformed m :: _ => PullResult.raised m
  | PullLine.netErr _ :: _ => PullResult.ok false
  | PullLine.parsed status completed total :: rest =>
    let successSeen := match status with
      | some st => strContainsSub (pyLower st) "success" || strContainsSub (pyLower st) "finished"
      | none => false
    if successSeen then PullResult.ok true
    else match completed, total with
      | some _, some t => if t = 0 then PullResult.raised "division by zero" else processPullLines rest
      | _, _ => processPullLines rest

/-- pull_model_with_progress (triage.py 26-79). The initial requests.post is
modelled by an Except: error = the request raised a RequestException (caught,
returning False); ok = the HTTP status code and the streamed lines. A non-200
status returns False (lines 49-51). -/
def pull_model_with_progress (resp : Except String (Nat × List PullLine)) : PullResult :=
  match resp with
  | Except.error _ => PullResult.ok false
  | Except.ok (code, lines) =>
    if code ≠ 200 then PullResult.ok false else processPullLines lines

/-- A streamed line on which the loop body just continues: empty, or a parsed
event with no success/finished status and no zero-total progress pair. -/
def lineBenign : PullLine → Bool
  | PullLine.empty => true
  | PullLine.malformed _ => false
  | PullLine.netErr _ => false
  | PullLine.parsed status completed total =>
    (match status with
     | some st => !(strContainsSub (pyLower st) "success" || strContainsSub (pyLower st) "finished")
     | none => true)
    && (match completed, total with
        | some _, some t => decide (t ≠ 0)
        | _, _ => true)

/-- ensure_ollama_model_available (triage.py 81-100). The listing (ollama.list)
either raises (error) or yields the optional name field of each local model
descriptor; when the model is absent the pull runs, with the given outcome.
Any exception inside the try (listing or pull) is re-raised (lines 97-100);
the pull's boolean result is ignored. -/
def ensure_ollama_model_available (model_name : String)
    (listing : Except String (List (Option String)))
    (pullResult : PullResult) : Except String Unit :=
  match listing with
  | Except.error e => Except.error e
  | Except.ok local_models =>
    if local_models.any (fun n => n == some model_name) then Except.ok ()
    else
      match pullResult with
      | PullResult.raised m => Except.error m
      | PullResult.ok _ => Except.ok ()

/-! ### Cleanup utility (clean.py 5-23)

The filesystem is a list of file paths (directories are implicit in the
paths). glob.glob('tickets-triaged/*') matches exactly the paths of the form
"tickets-triaged/" ++ rest where rest is a nonempty name containing no '/'
(the * wildcard does not cross path separators) and not starting with '.'
(glob's * does not match hidden names); each match is os.remove'd. -/

/-- Whether a path is matched by the glob pattern tickets-triaged/* (clean.py 15). -/
def globTicketsTriagedStar (p : String) : Bool :=
  let pre := "tickets-triaged/".data
  pre.isPrefixOf p.data
  && (let rest := p.data.drop pre.length
      !rest.isEmpty && !(rest.head? == some '.') && !(rest.contains '/'))

/-- clean_triaged_directory (clean.py 5-23): removes every glob match from the
filesystem, leaving all other paths. -/
def clean_triaged_directory (fs : List String) : List String :=
  fs.filter (fun p => !(globTicketsTriagedStar p))

/-! ## Theorems -/

/-- Helper: a string whose first characters disagree with b is not b ++ M for any M. -/
theorem ne_append_of_take_ne (a b : String)
    (h : a.data.take b.data.length ≠ b.data) (M : String) : a ≠ b ++ M := by
  intro hEq
  apply h
  have hdata : a.data = b.data ++ M.data := by
    rw [hEq]; exact String.data_append b M
  rw [hdata, List.take_left]

/-- Claim C4: for every ticket text T, the prompts rendered by
triage_ticket_ollama and triage_ticket_gemini are character-for-character
identical, and both embed T verbatim between the same delimiter markers: the
text before T ends with a line consisting of --- and the text after T starts
with a new line consisting of ---. -/
theorem c4_prompt_equivalence (t : String) :
    ollamaPrompt t = geminiPrompt t
    ∧ ollamaPrompt t = ollamaPromptPre ++ t ++ ollamaPromptSuf
    ∧ geminiPrompt t = ollamaPromptPre ++ t ++ ollamaPromptSuf
    ∧ pyEndsWith ollamaPromptPre "---\n    " = true
    ∧ pyStartsWith ollamaPromptSuf "\n    ---" = true := by
  refine ⟨rfl, rfl, rfl, ?_, by decide⟩
  set_option maxRecDepth 10000 in decide

/-- Claim C2: when the backend call raises an exception with message M, each
adapter returns the contained error string (exactly the backend-specific
marker followed by M) as a normal return value, never propagating the
exception; for the Ollama adapter this holds under the precondition that
OLLAMA_MODEL is set to a nonempty value. -/
theorem c2_adapters_contain_backend_exceptions
    (m : String) (chat : String → String → Except String String)
    (generate : String → Except String (Option String)) (ticket M : String)
    (hm : m.isEmpty = false)
    (hchat : chat m (ollamaPrompt ticket) = Except.error M)
    (hgen : generate (geminiPrompt ticket) = Except.error M) :
    triage_ticket_ollama (some m) chat ticket
      = Except.ok ("Error during Ollama triage: " ++ M)
    ∧ triage_ticket_gemini generate ticket
      = Except.ok ("Error during Gemini triage: " ++ M) := by
  constructor
  · simp only [triage_ticket_ollama, pyFalsyStr, hm, Bool.false_eq_true, if_false, hchat]
  · simp only [triage_ticket_gemini, hgen]

/-- Witness for C2 at a concrete model, backend failure and ticket. -/
theorem c2_witness :
    triage_ticket_ollama (some "llama3") (fun _ _ => Except.error "boom") "ticket"
      = Except.ok ("Error during Ollama triage: " ++ "boom")
    ∧ triage_ticket_gemini (fun _ => Except.error "boom") "ticket"
      = Except.ok ("Error during Gemini triage: " ++ "boom") :=
  c2_adapters_contain_backend_exceptions "llama3" (fun _ _ => Except.error "boom")
    (fun _ => Except.error "boom") "ticket" "boom" rfl rfl rfl

/-- Claim C3: when OLLAMA_MODEL is absent or empty, triage_ticket_ollama
raises the configuration error (whose message references OLLAMA_MODEL)
whatever the backend does — the result does not depend on the chat function,
so no backend call is attempted. -/
theorem c3_missing_config_fails_fast
    (model : Option String) (chat : String → String → Except String String)
    (ticket : String) (h : pyFalsyStr model = true) :
    triage_ticket_ollama model chat ticket
      = Except.error "OLLAMA_MODEL environment variable not set."
    ∧ strContainsSub "OLLAMA_MODEL environment variable not set." "OLLAMA_MODEL" = true := by
  refine ⟨?_, by decide⟩
  simp only [triage_ticket_ollama, h, if_true]

/-- Witness for C3 at the absent configuration and a concrete backend. -/
theorem c3_witness :
    triage_ticket_ollama none (fun _ _ => Except.ok "report") "ticket"
      = Except.error "OLLAMA_MODEL environment variable not set."
    ∧ strContainsSub "OLLAMA_MODEL environment variable not set." "OLLAMA_MODEL" = true :=
  c3_missing_config_fails_fast none (fun _ _ => Except.ok "report") "ticket" rfl

/-- Claim C7: when the backend call succeeds but the response text field is
falsy (absent or empty), triage_ticket_gemini returns exactly the
empty-response sentinel, and that sentinel is distinct from every generic
contained-error string. -/
theorem c7_empty_response_sentinel
    (generate : String → Except String (Option String)) (ticket : String)
    (h : generate (geminiPrompt ticket) = Except.ok none
       ∨ generate (geminiPrompt ticket) = Except.ok (some "")) :
    triage_ticket_gemini generate ticket = Except.ok "Error: Empty response from Gemini."
    ∧ ∀ M : String,
        ("Error: Empty response from Gemini." : String) ≠ "Error during Gemini triage: " ++ M := by
  refine ⟨?_, fun M => ne_append_of_take_ne _ _ (by decide) M⟩
  rcases h with h | h <;> simp only [triage_ticket_gemini, h, String.isEmpty_iff, if_true]

/-- Witness for C7 at a concrete backend returning an absent text field. -/
theorem c7_witness :
    triage_ticket_gemini (fun _ => Except.ok none) "ticket"
      = Except.ok "Error: Empty response from Gemini." :=
  (c7_empty_response_sentinel (fun _ => Except.ok none) "ticket" (Or.inl rfl)).1

/-- Claim C1: the filenames written by the batch loop are exactly the input
filenames ending in .md, in order — so each .md input yields exactly one
output under the same name, no non-.md input yields any, and N .md inputs
yield exactly N outputs. -/
theorem c1_one_output_per_md_file (triage : String → String)
    (files : List (String × String)) :
    (runBatch triage files).map Prod.fst
      = (files.map Prod.fst).filter (fun fn => pyEndsWith fn ".md")
    ∧ (runBatch triage files).length
      = (files.filter (fun fc => pyEndsWith fc.1 ".md")).length := by
  constructor
  · induction files with
    | nil => rfl
    | cons fc rest ih =>
      by_cases h : pyEndsWith fc.1 ".md" = true
      · simp [runBatch, h, List.filterMap_cons] at ih ⊢
        exact ih
      · simp [runBatch, h, List.filterMap_cons] at ih ⊢
        exact ih
  · induction files with
    | nil => rfl
    | cons fc rest ih =>
      by_cases h : pyEndsWith fc.1 ".md" = true
      · simp [runBatch, h, List.filterMap_cons] at ih ⊢
        exact ih
      · simp [runBatch, h, List.filterMap_cons] at ih ⊢
        exact ih

/-- Claim C5: a processed .md file appears in the batch output under its own
filename with content exactly original ++ status block ++ triage separator ++
triage report, the report being the triage of the original (pre-status)
content; and writing it into any output directory overwrites whatever that
directory held under the name. -/
theorem c5_output_content_shape (triage : String → String)
    (files : List (String × String)) (fn c : String)
    (hmem : (fn, c) ∈ files) (hmd : pyEndsWith fn ".md" = true) :
    (fn, c ++ "\n\n---\n\n**Status:** new" ++ "\n\n---\n\n## Triage\n\n" ++ triage c)
      ∈ runBatch triage files
    ∧ ∀ st : Store,
        runBatchStore triage [(fn, c)] st fn
          = some (c ++ "\n\n---\n\n**Status:** new" ++ "\n\n---\n\n## Triage\n\n" ++ triage c) := by
  constructor
  · have : (fn, c ++ "\n\n---\n\n**Status:** new" ++ "\n\n---\n\n## Triage\n\n" ++ triage c)
        = (fn, processTicket triage c) := rfl
    rw [this]
    apply List.mem_filterMap.mpr
    exact ⟨(fn, c), hmem, by simp [hmd]⟩
  · intro st
    simp only [runBatchStore, List.foldl_cons, List.foldl_nil, hmd, if_true, writeFile,
      if_pos rfl]
    rfl

/-- Witness for C5 on a one-file listing and a concrete triage function. -/
theorem c5_witness :
    ("a.md", "hello" ++ "\n\n---\n\n**Status:** new" ++ "\n\n---\n\n## Triage\n\n"
        ++ (fun _ => "report") "hello")
      ∈ runBatch (fun _ => "report") [("a.md", "hello")]
    ∧ ∀ st : Store,
        runBatchStore (fun _ => "report") [("a.md", "hello")] st "a.md"
          = some ("hello" ++ "\n\n---\n\n**Status:** new" ++ "\n\n---\n\n## Triage\n\n"
              ++ (fun _ => "report") "hello") :=
  c5_output_content_shape (fun _ => "report") [("a.md", "hello")] "a.md" "hello"
    (List.mem_singleton.mpr rfl) (by decide)

/-- Helper: peeling one file off the batch loop over the output directory. -/
theorem runBatchStore_cons (triage : String → String) (fc : String × String)
    (rest : List (String × String)) (st : Store) :
    runBatchStore triage (fc :: rest) st
      = runBatchStore triage rest
          (if pyEndsWith fc.1 ".md" = true
           then writeFile st fc.1 (processTicket triage fc.2) else st) := rfl

/-- Helper: a name no input file writes is untouched by the batch loop. -/
theorem runBatchStore_skip (triage : String → String)
    (files : List (String × String)) (st : Store) (n : String)
    (h : ∀ fc ∈ files, pyEndsWith fc.1 ".md" = true → fc.1 ≠ n) :
    runBatchStore triage files st n = st n := by
  induction files generalizing st with
  | nil => rfl
  | cons fc rest ih =>
    rw [runBatchStore_cons]
    have hrest : ∀ gc ∈ rest, pyEndsWith gc.1 ".md" = true → gc.1 ≠ n :=
      fun gc hg => h gc (List.mem_cons_of_mem _ hg)
    rw [ih _ hrest]
    by_cases hmd : pyEndsWith fc.1 ".md" = true
    · have hne : fc.1 ≠ n := h fc (List.mem_cons_self _ _) hmd
      simp only [hmd, if_true, writeFile]
      exact if_neg (fun hEq => hne hEq.symm)
    · simp [hmd]

/-- Helper: the batch loop's final output directory depends on the initial one
only at names no input file writes. -/
theorem runBatchStore_congr (triage : String → String)
    (files : List (String × String)) (st st' : Store)
    (h : ∀ n, (∀ fc ∈ files, pyEndsWith fc.1 ".md" = true → fc.1 ≠ n) → st n = st' n) :
    runBatchStore triage files st = runBatchStore triage files st' := by
  induction files generalizing st st' with
  | nil => funext n; exact h n (by simp)
  | cons fc rest ih =>
    rw [runBatchStore_cons, runBatchStore_cons]
    apply ih
    intro n hn
    by_cases hmd : pyEndsWith fc.1 ".md" = true
    · simp only [hmd, if_true, writeFile]
      by_cases hne : n = fc.1
      · simp [hne]
      · simp only [hne, if_false]
        refine h n (fun gc hg hmdg => ?_)
        rcases List.mem_cons.mp hg with hEq | hg'
        · subst hEq; exact fun hcn => hne hcn.symm
        · exact hn gc hg' hmdg
    · simp only [hmd, Bool.false_eq_true, if_false]
      refine h n (fun gc hg hmdg => ?_)
      rcases List.mem_cons.mp hg with hEq | hg'
      · subst hEq; exact absurd hmdg hmd
      · exact hn gc hg' hmdg

/-- Claim C9: with the same triage behavior and the same input listing,
running the batch a second time leaves the output directory exactly as the
first run left it — the second run silently overwrites each output with
byte-identical content. -/
theorem c9_second_run_idempotent (triage : String → String)
    (files : List (String × String)) (st : Store) :
    runBatchStore triage files (runBatchStore triage files st)
      = runBatchStore triage files st :=
  runBatchStore_congr triage files _ _
    (fun n hn => runBatchStore_skip triage files st n hn)

/-- Helper: the pull loop just moves past a benign line. -/
theorem processPullLines_benign_cons (l : PullLine) (rest : List PullLine)
    (h : lineBenign l = true) :
    processPullLines (l :: rest) = processPullLines rest := by
  cases l with
  | empty => rfl
  | malformed m => simp [lineBenign] at h
  | netErr m => simp [lineBenign] at h
  | parsed s c t =>
    cases s <;> cases c <;> cases t <;> simp_all [lineBenign, processPullLines]

/-- Helper: the pull loop just moves past any run of benign lines. -/
theorem processPullLines_benign_append (pre rest : List PullLine)
    (h : pre.all lineBenign = true) :
    processPullLines (pre ++ rest) = processPullLines rest := by
  induction pre with
  | nil => rfl
  | cons l ls ih =>
    simp only [List.all_cons, Bool.and_eq_true] at h
    rw [List.cons_append, processPullLines_benign_cons l _ h.1, ih h.2]

/-- Counterexample to claim C6 as stated: a stream line that fails JSON
parsing is an error raised while consuming the event stream, yet the pull
propagates it as an exception instead of reporting the boolean False (the
except clause at triage.py 76 catches only RequestException, not the
ValueError raised by json.loads at line 57). -/
theorem c6_counterexample :
    pull_model_with_progress (Except.ok (200, [PullLine.malformed "Expecting value"]))
      = PullResult.raised "Expecting value"
    ∧ PullResult.raised "Expecting value" ≠ PullResult.ok false
    ∧ PullResult.raised "Expecting value" ≠ PullResult.ok true :=
  ⟨rfl, by decide, by decide⟩

/-- Claim C6 amended: failures of the network layer during the pull — the
initial request raising a RequestException, a non-200 HTTP status, or a
RequestException raised while consuming the stream — are reported as the
boolean result False; but an error raised while parsing a stream line
(json.loads) or while computing the progress ratio (zero total) propagates
out of the pull as an exception; and a failure during the listing step is
re-raised to the caller of the availability checker. -/
theorem c6_amended_pull_error_containment :
    (∀ e : String, pull_model_with_progress (Except.error e) = PullResult.ok false)
    ∧ (∀ (code : Nat) (lines : List PullLine), code ≠ 200 →
        pull_model_with_progress (Except.ok (code, lines)) = PullResult.ok false)
    ∧ (∀ (pre : List PullLine) (m : String) (rest : List PullLine),
        pre.all lineBenign = true →
        pull_model_with_progress (Except.ok (200, pre ++ PullLine.netErr m :: rest))
          = PullResult.ok false)
    ∧ (∀ (pre : List PullLine) (m : String) (rest : List PullLine),
        pre.all lineBenign = true →
        pull_model_with_progress (Except.ok (200, pre ++ PullLine.malformed m :: rest))
          = PullResult.raised m)
    ∧ (∀ (pre : List PullLine) (c : Nat) (rest : List PullLine),
        pre.all lineBenign = true →
        pull_model_with_progress
            (Except.ok (200, pre ++ PullLine.parsed none (some c) (some 0) :: rest))
          = PullResult.raised "division by zero")
    ∧ (∀ (model_name e : String) (p : PullResult),
        ensure_ollama_model_available model_name (Except.error e) p = Except.error e) := by
  refine ⟨fun e => rfl, fun code lines h => ?_, fun pre m rest h => ?_,
    fun pre m rest h => ?_, fun pre c rest h => ?_, fun _ _ _ => rfl⟩
  · simp [pull_model_with_progress, h]
  · simp [pull_model_with_progress, processPullLines_benign_append pre _ h, processPullLines]
  · simp [pull_model_with_progress, processPullLines_benign_append pre _ h, processPullLines]
  · simp [pull_model_with_progress, processPullLines_benign_append pre _ h, processPullLines]

/-- Witness for amended C6: a malformed line after a benign one propagates its
parse error out of the pull. -/
theorem c6_amended_witness :
    pull_model_with_progress (Except.ok (200,
        [PullLine.empty] ++ PullLine.malformed "Expecting value: line 1 column 1 (char 0)" :: []))
      = PullResult.raised "Expecting value: line 1 column 1 (char 0)" :=
  c6_amended_pull_error_containment.2.2.2.1 [PullLine.empty]
    "Expecting value: line 1 column 1 (char 0)" [] (by decide)

/-- Claim C10: with a 200 response, a stream the loop runs through to
exhaustion — every line empty or a parsed event with no success/finished
status (and no error-raising progress pair) — makes the pull return True. -/
theorem c10_exhaustion_returns_true (lines : List PullLine)
    (h : lines.all lineBenign = true) :
    pull_model_with_progress (Except.ok (200, lines)) = PullResult.ok true := by
  have hrun : processPullLines lines = PullResult.ok true := by
    have happ := processPullLines_benign_append lines [] h
    simpa using happ
  simp [pull_model_with_progress, hrun]

/-- Witness for C10 on a concrete progress-only stream. -/
theorem c10_witness :
    pull_model_with_progress (Except.ok (200,
        [PullLine.parsed (some "downloading manifest") (some 5) (some 10), PullLine.empty]))
      = PullResult.ok true :=
  c10_exhaustion_returns_true
    [PullLine.parsed (some "downloading manifest") (some 5) (some 10), PullLine.empty]
    (by decide)

/-- Counterexample to claim C8 as stated: a hidden file directly inside the
triaged directory is a file of that directory, but glob's * does not match
names starting with '.', so cleanup leaves it in place — the directory held
K = 1 file before cleanup and still holds 1 file, not 0, after. -/
theorem c8_counterexample :
    clean_triaged_directory ["tickets-triaged/.hidden"] = ["tickets-triaged/.hidden"]
    ∧ pyStartsWith "tickets-triaged/.hidden" "tickets-triaged/" = true
    ∧ ("tickets-triaged/.hidden".data.drop "tickets-triaged/".data.length).contains '/' = false :=
  ⟨by decide, by decide, by decide⟩

/-- Claim C8 amended: cleanup removes exactly the non-hidden files directly
inside the triaged directory — every path outside the directory survives,
every path nested in a subdirectory survives, nothing is added, every direct
non-hidden file is gone, and the directory entry itself is never removed. -/
theorem c8_amended_cleanup (fs : List String) :
    (∀ p ∈ fs, pyStartsWith p "tickets-triaged/" = false → p ∈ clean_triaged_directory fs)
    ∧ (∀ p ∈ fs, (p.data.drop "tickets-triaged/".data.length).contains '/' = true →
        p ∈ clean_triaged_directory fs)
    ∧ (∀ p ∈ clean_triaged_directory fs, p ∈ fs)
    ∧ (∀ p ∈ clean_triaged_directory fs, globTicketsTriagedStar p = false)
    ∧ (∀ p ∈ fs, p = "tickets-triaged" → p ∈ clean_triaged_directory fs) := by
  refine ⟨fun p hp h => ?_, fun p hp h => ?_, fun p hp => ?_, fun p hp => ?_,
    fun p hp h => ?_⟩
  · refine List.mem_filter.mpr ⟨hp, ?_⟩
    have hg : globTicketsTriagedStar p = false := by
      simp only [globTicketsTriagedStar]
      have h' : List.isPrefixOf "tickets-triaged/".data p.data = false := h
      rw [h', Bool.false_and]
    rw [hg]; rfl
  · refine List.mem_filter.mpr ⟨hp, ?_⟩
    have hg : globTicketsTriagedStar p = false := by
      simp only [globTicketsTriagedStar]
      rw [h]
      simp
    rw [hg]; rfl
  · exact (List.mem_filter.mp hp).1
  · have := (List.mem_filter.mp hp).2
    simpa using this
  · subst h
    refine List.mem_filter.mpr ⟨hp, by decide⟩

/-- Witness for amended C8: a path outside the triaged directory survives a
concrete cleanup. -/
theorem c8_amended_witness :
    "notes/keep.txt" ∈ clean_triaged_directory ["tickets-triaged/a.md", "notes/keep.txt"] :=
  (c8_amended_cleanup ["tickets-triaged/a.md", "notes/keep.txt"]).1 "notes/keep.txt"
    (by decide) (by decide)

end Triage
